/-
Verification of the fault-tolerant orchestration core of the
rok-auto-alliance-bot repository, as a shallow embedding in Lean 4.

Embedded components (from src/src):
  * recovery_manager.py   : GameScreen, RecoveryManager.get_current_screen,
                            RecoveryManager.return_to_home, RetryConfig, with_retry
  * character_switcher.py : CharacterSwitcher.should_run_daily_task,
                            CharacterSwitcher.switch_all_characters
  * daily_task_tracker.py : DailyTaskTracker (load/save/query/mark)

External effects (OCR presence checks, clicks, sleeps, the filesystem and the
wall clock) are modelled as explicit parameters: presence-check outcomes are a
record of booleans, the classifier seen by the recovery loop is a function from
observation number to screen, the current UTC date string and the success of a
file write are arguments.  Python dicts are modelled as association lists with
first-match lookup and in-place update, matching dict semantics for the
unique-key lists these modules build.
-/
import Mathlib

namespace RokBot

/-! ## GameScreen (recovery_manager.py, class GameScreen) -/

/-- Possible game screens the bot can detect (enum GameScreen). -/
inductive GameScreen where
  | HOME_VILLAGE
  | MAP_SCREEN
  | CHARACTER_LOGIN
  | ALLIANCE_MENU
  | DIALOG_OPEN
  | UNKNOWN
deriving DecidableEq, Repr

/-! ## Screen classifier (RecoveryManager.get_current_screen) -/

/-- Outcomes of the five OCR presence checks consulted by
get_current_screen, in the source's field names. -/
structure ScreenObs where
  is_in_character_login : Bool
  is_char_in_alliance : Bool
  is_in_home_village : Bool
  is_in_map_screen : Bool
  is_bottom_bar_expanded : Bool
deriving DecidableEq, Repr

/-- RecoveryManager.get_current_screen: first the stop check (returns UNKNOWN
when stop is requested), then the five presence checks in source order,
returning the variant of the first check reporting presence, else UNKNOWN. -/
def get_current_screen (stopRequested : Bool) (obs : ScreenObs) : GameScreen :=
  if stopRequested then GameScreen.UNKNOWN
  else if obs.is_in_character_login then GameScreen.CHARACTER_LOGIN
  else if obs.is_char_in_alliance then GameScreen.ALLIANCE_MENU
  else if obs.is_in_home_village then GameScreen.HOME_VILLAGE
  else if obs.is_in_map_screen then GameScreen.MAP_SCREEN
  else if obs.is_bottom_bar_expanded then GameScreen.DIALOG_OPEN
  else GameScreen.UNKNOWN

/-- Spec-side definition: the fixed ordered (predicate result, variant) table
of get_current_screen, for the first-match formulation of the claim. -/
def predicateTable (obs : ScreenObs) : List (Bool × GameScreen) :=
  [(obs.is_in_character_login, GameScreen.CHARACTER_LOGIN),
   (obs.is_char_in_alliance, GameScreen.ALLIANCE_MENU),
   (obs.is_in_home_village, GameScreen.HOME_VILLAGE),
   (obs.is_in_map_screen, GameScreen.MAP_SCREEN),
   (obs.is_bottom_bar_expanded, GameScreen.DIALOG_OPEN)]

/-- Spec-side definition: return the variant of the first entry whose
predicate reported presence; UNKNOWN when none did. -/
def firstMatch : List (Bool × GameScreen) → GameScreen
  | [] => GameScreen.UNKNOWN
  | (b, s) :: rest => if b then s else firstMatch rest

/-! ## Recovery state machine (RecoveryManager.return_to_home) -/

/-- Outcome of one return_to_home run: whether home was reached, how many
times the classifier was consulted, and the screens a corrective action was
applied to, in order (one corrective action per non-home observation). -/
structure RecoveryResult where
  success : Bool
  classifications : Nat
  appliedActions : List GameScreen
deriving DecidableEq, Repr

/-- Loop body of return_to_home from iteration `attempt` with the given
number of loop iterations remaining.  `stop` is the stop_check callback
sampled at the top of each iteration; `cls` gives the screen the classifier
reports at each classification.  Mirrors the `for attempt in
range(max_attempts)` loop: stop means immediate failure; HOME_VILLAGE means
immediate success; any other screen gets its corrective action and the loop
continues. -/
def return_to_home_from (stop : Nat → Bool) (cls : Nat → GameScreen) :
    Nat → Nat → RecoveryResult
  | _, 0 => ⟨false, 0, []⟩
  | attempt, remaining + 1 =>
    if stop attempt then ⟨false, 0, []⟩
    else
      let s := cls attempt
      if s = GameScreen.HOME_VILLAGE then ⟨true, 1, []⟩
      else
        let r := return_to_home_from stop cls (attempt + 1) remaining
        ⟨r.success, r.classifications + 1, s :: r.appliedActions⟩

/-- RecoveryManager.return_to_home(max_attempts): run the bounded
observe/act loop from attempt 0; exhausting attempts returns failure. -/
def return_to_home (stop : Nat → Bool) (cls : Nat → GameScreen)
    (max_attempts : Nat) : RecoveryResult :=
  return_to_home_from stop cls 0 max_attempts

/-- Number of input signals the corrective action for a screen issues
(map button click counts as one signal; escapes per branch as in source). -/
def recovery_signals : GameScreen → Nat
  | GameScreen.HOME_VILLAGE => 0
  | GameScreen.MAP_SCREEN => 1
  | GameScreen.CHARACTER_LOGIN => 3
  | GameScreen.ALLIANCE_MENU => 2
  | GameScreen.DIALOG_OPEN => 1
  | GameScreen.UNKNOWN => 1

/-! ## Retry combinator (recovery_manager.py, with_retry) -/

/-- RetryConfig dataclass.  The inter-retry delay is carried in
milliseconds (source: 2.0 seconds float); it does not affect control flow. -/
structure RetryConfig where
  max_retries : Nat := 2
  recover_to_home : Bool := true
  delay_between_retries_ms : Nat := 2000
deriving DecidableEq, Repr

/-- Outcome of one invocation of a wrapped operation: returned truthy,
returned falsy, or raised an exception. -/
inductive OpOutcome where
  | ok
  | fail
  | exn
deriving DecidableEq, Repr

/-- Events of a with_retry run, in order: an invocation of the wrapped
operation, or a recovery.return_to_home() call. -/
inductive RetryEvent where
  | invoke
  | recover
deriving DecidableEq, Repr

/-- Loop body of the with_retry wrapper: `remaining` loop iterations left of
`for attempt in range(max_retries + 1)`, invoking `op` at successive attempt
indices.  A truthy result returns True at once; a falsy result or an
exception triggers recovery (when configured and the recovery attribute is
present) unless this was the final attempt; exhausting the loop returns
False — exceptions are swallowed, never re-raised. -/
def with_retry_from (cfg : RetryConfig) (recoveryPresent : Bool)
    (op : Nat → OpOutcome) : Nat → Nat → Bool × List RetryEvent
  | _, 0 => (false, [])
  | attempt, remaining + 1 =>
    match op attempt with
    | OpOutcome.ok => (true, [RetryEvent.invoke])
    | _ =>
      if remaining = 0 then (false, [RetryEvent.invoke])
      else
        let tail := with_retry_from cfg recoveryPresent op (attempt + 1) remaining
        if cfg.recover_to_home && recoveryPresent then
          (tail.1, RetryEvent.invoke :: RetryEvent.recover :: tail.2)
        else
          (tail.1, RetryEvent.invoke :: tail.2)

/-- The with_retry(config) wrapper applied to an operation: runs the retry
loop for max_retries + 1 attempts starting at attempt 0 and yields the
returned boolean together with the ordered invoke/recover event trace. -/
def with_retry (cfg : RetryConfig) (recoveryPresent : Bool)
    (op : Nat → OpOutcome) : Bool × List RetryEvent :=
  with_retry_from cfg recoveryPresent op 0 (cfg.max_retries + 1)

/-! ## Cycle orchestrator (CharacterSwitcher.switch_all_characters) -/

/-- Per-entity outcome of the (retry-wrapped) processing call as seen by the
orchestrator's try/except: returned truthy, returned falsy, or raised. -/
inductive ProcResult where
  | ok
  | fail
  | exn
deriving DecidableEq, Repr

/-- Aggregate state of one switch_all_characters run: the
successful_characters counter, the failed_characters list (the source
appends `i + 1`, 1-based for logging), the number of bulkhead
recovery.return_to_home(max_attempts=3) calls made after per-entity
failures, the entity indices attempted in order, and whether the loop was
broken by a stop request. -/
structure RunState where
  successful : Nat
  failed : List Nat
  bulkheadCalls : Nat
  visited : List Nat
  stoppedEarly : Bool
deriving DecidableEq, Repr

/-- Loop body of switch_all_characters from index `i` with the given number
of indices remaining (`range(start_from, num_of_chars)`): a stop request
breaks the loop; otherwise entity `i` is processed — success increments the
counter, a falsy return or an exception appends `i + 1` to
failed_characters and issues one bulkhead recovery call — and the loop
continues with `i + 1`. -/
def switch_all_from (stop : Nat → Bool) (proc : Nat → ProcResult) :
    Nat → Nat → RunState
  | _, 0 => ⟨0, [], 0, [], false⟩
  | i, remaining + 1 =>
    if stop i then ⟨0, [], 0, [], true⟩
    else
      let r := switch_all_from stop proc (i + 1) remaining
      match proc i with
      | ProcResult.ok =>
          ⟨r.successful + 1, r.failed, r.bulkheadCalls, i :: r.visited, r.stoppedEarly⟩
      | ProcResult.fail =>
          ⟨r.successful, (i + 1) :: r.failed, r.bulkheadCalls + 1, i :: r.visited,
           r.stoppedEarly⟩
      | ProcResult.exn =>
          ⟨r.successful, (i + 1) :: r.failed, r.bulkheadCalls + 1, i :: r.visited,
           r.stoppedEarly⟩

/-- CharacterSwitcher.switch_all_characters(start_from): iterate the
per-entity loop over `range(start_from, num_of_chars)`. -/
def switch_all_characters (stop : Nat → Bool) (proc : Nat → ProcResult)
    (start_from num_of_chars : Nat) : RunState :=
  switch_all_from stop proc start_from (num_of_chars - start_from)

/-- The boolean switch_all_characters returns:
`len(failed_characters) == 0`. -/
def switch_all_characters_ret (stop : Nat → Bool) (proc : Nat → ProcResult)
    (start_from num_of_chars : Nat) : Bool :=
  (switch_all_characters stop proc start_from num_of_chars).failed.length == 0

/-- The per-entity processing the orchestrator actually invokes:
_process_single_character wrapped by
with_retry(RetryConfig(max_retries=2, recover_to_home=True,
delay_between_retries=2.0)).  The wrapper normalizes exceptions to a falsy
return, so the orchestrator sees ok or fail, never exn. -/
def process_single_character (recoveryPresent : Bool)
    (body : Nat → Nat → OpOutcome) (i : Nat) : ProcResult :=
  if (with_retry ⟨2, true, 2000⟩ recoveryPresent (body i)).1 then ProcResult.ok
  else ProcResult.fail

/-! ## Daily task tracker (daily_task_tracker.py) -/

/-- First-match association-list lookup, the model of Python dict
membership/indexing for the string-keyed dicts these modules build
(their keys are unique). -/
def alookup {β : Type} : List (String × β) → String → Option β
  | [], _ => none
  | (k, v) :: rest, key => if k = key then some v else alookup rest key

/-- Python dict assignment `d[k] = v`: replace the value at an existing key
in place, else append the new binding at the end. -/
def adset {β : Type} : List (String × β) → String → β → List (String × β)
  | [], key, v => [(key, v)]
  | (k, w) :: rest, key, v =>
    if k = key then (k, v) :: rest else (k, w) :: adset rest key v

/-- In-memory tracker state (the `self.data` dict): `last_updated`
(None until the first save) and the `characters` dict mapping
`str(character_index)` to a task-name → completion-date dict. -/
structure TrackerData where
  last_updated : Option String
  characters : List (String × List (String × String))
deriving DecidableEq, Repr

/-- The empty structure _load_tracking_data falls back to. -/
def emptyTrackerData : TrackerData := ⟨none, []⟩

/-- DailyTaskTracker._load_tracking_data: when the file exists and parses,
its contents; a missing file, or a JSONDecodeError/IOError (modelled as
`parsed = none`), yields the empty structure. -/
def load_tracking_data (fileExists : Bool) (parsed : Option TrackerData) :
    TrackerData :=
  if fileExists then
    match parsed with
    | some d => d
    | none => emptyTrackerData
  else emptyTrackerData

/-- DailyTaskTracker._save_tracking_data: sets `last_updated` to the current
timestamp in memory, then attempts the file write; an IOError (writeOk =
false) is caught and leaves the file as it was.  Returns the new in-memory
state and the resulting file contents. -/
def save_tracking_data (d : TrackerData) (now : String) (writeOk : Bool)
    (file : Option TrackerData) : TrackerData × Option TrackerData :=
  let d2 : TrackerData := ⟨some now, d.characters⟩
  (d2, if writeOk then some d2 else file)

/-- The `str(character_index)` dict key. -/
def char_key (character_index : Nat) : String := Nat.repr character_index

/-- DailyTaskTracker.is_task_completed_today, with today's UTC date string
passed explicitly: absent character or absent task yields False, otherwise
exact string comparison of the stored date with today. -/
def is_task_completed_today (d : TrackerData) (character_index : Nat)
    (task_name today : String) : Bool :=
  match alookup d.characters (char_key character_index) with
  | none => false
  | some char_data =>
    match alookup char_data task_name with
    | none => false
    | some completion_date => completion_date = today

/-- DailyTaskTracker.mark_task_completed: ensure the character's dict
exists, store today's date under the task name, then _save_tracking_data
(whose write may fail; the in-memory update survives either way).
Returns the new in-memory state and file contents. -/
def mark_task_completed (d : TrackerData) (character_index : Nat)
    (task_name today now : String) (writeOk : Bool)
    (file : Option TrackerData) : TrackerData × Option TrackerData :=
  let key := char_key character_index
  let char_data :=
    match alookup d.characters key with
    | none => []
    | some cd => cd
  let chars := adset d.characters key (adset char_data task_name today)
  save_tracking_data ⟨d.last_updated, chars⟩ now writeOk file

/-- DailyTaskTracker.reset_all_tasks: clear the characters dict and save. -/
def reset_all_tasks (d : TrackerData) (now : String) (writeOk : Bool)
    (file : Option TrackerData) : TrackerData × Option TrackerData :=
  save_tracking_data ⟨d.last_updated, []⟩ now writeOk file

/-! ## Daily-task gating (CharacterSwitcher.should_run_daily_task) -/

/-- CharacterSwitcher.should_run_daily_task for the current character
index: no tracker → run; force_daily_tasks → run; completed today → skip;
otherwise run. -/
def should_run_daily_task (daily_tracker : Option TrackerData)
    (force_daily_tasks : Bool) (current_character_index : Nat)
    (task_name today : String) : Bool :=
  match daily_tracker with
  | none => true
  | some d =>
    if force_daily_tasks then true
    else if is_task_completed_today d current_character_index task_name today then false
    else true

/-! ## Remaining auxiliary definitions -/

/-- The decimal digit list of `n`, most significant first, as
`Nat.toDigitsCore` produces it once sufficiently fuelled. -/
def decDigits (n : Nat) : List Char :=
  if n / 10 = 0 then [Nat.digitChar (n % 10)]
  else decDigits (n / 10) ++ [Nat.digitChar (n % 10)]
decreasing_by exact Nat.div_lt_self (Nat.pos_of_ne_zero (by omega)) (by omega)

/-- Decode a most-significant-first decimal digit list. -/
def decodeDec (l : List Char) : Nat :=
  l.foldl (fun a c => a * 10 + (c.toNat - 48)) 0

/-- The event trace of a with_retry run whose operation never succeeds with
max_retries = k, recover_to_home = True and the recovery attribute present:
k blocks of invoke-then-recover, then the final invocation. -/
def failPattern : Nat → List RetryEvent
  | 0 => [RetryEvent.invoke]
  | k + 1 => RetryEvent.invoke :: RetryEvent.recover :: failPattern k

/-- The completion date the tracker stores for (character j, task u):
the observable the frame property of mark_task_completed is about. -/
def taskDate (d : TrackerData) (j : Nat) (u : String) : Option String :=
  match alookup d.characters (char_key j) with
  | none => none
  | some char_data => alookup char_data u

/-- Scenario of the three-entity run: the processing body of entity 1 fails
on every invocation, entities 0 and 2 succeed on every invocation. -/
def scenarioOp (i : Nat) : Nat → OpOutcome :=
  fun _ => if i = 1 then OpOutcome.fail else OpOutcome.ok

/-- The retry-wrapped per-entity processing of the scenario (max_retries =
2, recover_to_home = True, recovery present). -/
def scenarioProc (i : Nat) : ProcResult :=
  process_single_character true scenarioOp i

/-- The scenario run: 3 entities from index 0, no stop requested. -/
def scenarioRun : RunState :=
  switch_all_characters (fun _ => false) scenarioProc 0 3

/-! ## Injectivity of the decimal dict key

`char_key` is `Nat.repr`; distinct character indices must map to distinct
dict keys for the frame properties of the tracker. -/

theorem toDigitsCore_eq_decDigits :
    ∀ (fuel n : Nat) (ds : List Char), n < fuel →
      Nat.toDigitsCore 10 fuel n ds = decDigits n ++ ds := by
  intro fuel
  induction fuel with
  | zero => intro n ds h; omega
  | succ f ih =>
    intro n ds _
    rw [decDigits]
    by_cases h10 : n / 10 = 0
    · simp [Nat.toDigitsCore, h10]
    · have hlt : n / 10 < n := Nat.div_lt_self (Nat.pos_of_ne_zero (by omega)) (by omega)
      have hf : n / 10 < f := by omega
      simp only [Nat.toDigitsCore, h10, if_neg h10]
      rw [ih (n / 10) (Nat.digitChar (n % 10) :: ds) hf]
      simp [h10]

theorem repr_eq_decDigits (n : Nat) : Nat.repr n = (decDigits n).asString := by
  show (Nat.toDigits 10 n).asString = (decDigits n).asString
  rw [Nat.toDigits, toDigitsCore_eq_decDigits (n + 1) n [] (Nat.lt_succ_self n)]
  simp

theorem digitChar_val (n : Nat) (h : n < 10) : (Nat.digitChar n).toNat - 48 = n := by
  revert h
  revert n
  decide

theorem decodeDec_decDigits (n : Nat) : decodeDec (decDigits n) = n := by
  induction n using Nat.strong_induction_on with
  | _ n ih =>
    rw [decDigits]
    by_cases h10 : n / 10 = 0
    · have hn : n < 10 := by omega
      have : n % 10 = n := Nat.mod_eq_of_lt hn
      simp [h10, decodeDec, this, digitChar_val n hn]
    · have hlt : n / 10 < n := Nat.div_lt_self (Nat.pos_of_ne_zero (by omega)) (by omega)
      have ihd := ih (n / 10) hlt
      simp only [if_neg h10, decodeDec, List.foldl_append]
      have hm : n % 10 < 10 := Nat.mod_lt n (by omega)
      simp only [decodeDec] at ihd
      simp [ihd, digitChar_val (n % 10) hm]
      omega

theorem decDigits_injective : Function.Injective decDigits := by
  intro m n h
  have := congrArg decodeDec h
  rwa [decodeDec_decDigits, decodeDec_decDigits] at this

theorem char_key_injective : Function.Injective char_key := by
  intro m n h
  apply decDigits_injective
  have h2 : (decDigits m).asString = (decDigits n).asString := by
    rw [← repr_eq_decDigits, ← repr_eq_decDigits]
    exact h
  exact congrArg String.data h2

/-! ## Association-list (dict) lemmas -/

theorem alookup_adset_self {β : Type} (l : List (String × β)) (key : String) (v : β) :
    alookup (adset l key v) key = some v := by
  induction l with
  | nil => simp [adset, alookup]
  | cons p rest ih =>
    by_cases h : p.1 = key
    · simp [adset, alookup, h]
    · simp [adset, alookup, h, ih]

theorem alookup_adset_other {β : Type} (l : List (String × β))
    (key k : String) (v : β) (h : k ≠ key) :
    alookup (adset l key v) k = alookup l k := by
  have h2 : key ≠ k := fun hh => h hh.symm
  induction l with
  | nil => simp [adset, alookup, h2]
  | cons p rest ih =>
    by_cases hp : p.1 = key
    · subst hp
      simp [adset, alookup, h2]
    · simp only [adset, if_neg hp, alookup]
      by_cases hk : p.1 = k
      · simp [hk]
      · simp [hk, ih]

/-! ## failPattern lemmas -/

theorem failPattern_count_invoke (k : Nat) :
    (failPattern k).count RetryEvent.invoke = k + 1 := by
  induction k with
  | zero => rfl
  | succ k ih => simp [failPattern, List.count_cons, ih]

theorem failPattern_count_recover (k : Nat) :
    (failPattern k).count RetryEvent.recover = k := by
  induction k with
  | zero => rfl
  | succ k ih => simp [failPattern, List.count_cons, ih]

theorem failPattern_ne_nil (k : Nat) : failPattern k ≠ [] := by
  cases k <;> simp [failPattern]

theorem failPattern_getLast (k : Nat) :
    (failPattern k).getLast? = some RetryEvent.invoke := by
  induction k with
  | zero => rfl
  | succ k ih =>
    rw [failPattern, List.getLast?_cons_cons]
    cases hk : failPattern k with
    | nil => exact absurd hk (failPattern_ne_nil k)
    | cons a l =>
      rw [List.getLast?_cons_cons, ← hk]
      exact ih

/-! ## Retry-loop lemma -/

theorem with_retry_from_always_fail (cfg : RetryConfig) (op : Nat → OpOutcome)
    (hop : ∀ n, op n ≠ OpOutcome.ok) (hrec : cfg.recover_to_home = true) :
    ∀ remaining attempt, 1 ≤ remaining →
      with_retry_from cfg true op attempt remaining =
        (false, failPattern (remaining - 1)) := by
  intro remaining
  induction remaining with
  | zero => intro attempt h; omega
  | succ r ih =>
    intro attempt _
    cases hcase : op attempt with
    | ok => exact absurd hcase (hop attempt)
    | fail =>
      cases r with
      | zero => simp [with_retry_from, hcase, failPattern]
      | succ r2 =>
        have ht := ih (attempt + 1) (by omega)
        rw [with_retry_from, hcase]
        simp [ht, hrec, failPattern]
    | exn =>
      cases r with
      | zero => simp [with_retry_from, hcase, failPattern]
      | succ r2 =>
        have ht := ih (attempt + 1) (by omega)
        rw [with_retry_from, hcase]
        simp [ht, hrec, failPattern]

/-! ## Recovery-loop lemmas -/

theorem return_to_home_from_success (stop : Nat → Bool) (cls : Nat → GameScreen)
    (hstop : ∀ j, stop j = false) :
    ∀ fuel m attempt, m < fuel →
      (∀ j, j < m → cls (attempt + j) ≠ GameScreen.HOME_VILLAGE) →
      cls (attempt + m) = GameScreen.HOME_VILLAGE →
      return_to_home_from stop cls attempt fuel =
        ⟨true, m + 1, (List.range m).map (fun j => cls (attempt + j))⟩ := by
  intro fuel
  induction fuel with
  | zero => intro m attempt h; omega
  | succ f ih =>
    intro m attempt hm hpre hhome
    cases m with
    | zero =>
      have h0 : cls attempt = GameScreen.HOME_VILLAGE := by simpa using hhome
      rw [return_to_home_from]
      simp [hstop attempt, h0]
    | succ m2 =>
      have h0 : cls attempt ≠ GameScreen.HOME_VILLAGE := by
        have := hpre 0 (by omega)
        simpa using this
      have hpre2 : ∀ j, j < m2 → cls (attempt + 1 + j) ≠ GameScreen.HOME_VILLAGE := by
        intro j hj
        have := hpre (j + 1) (by omega)
        have harith : attempt + (j + 1) = attempt + 1 + j := by omega
        rwa [harith] at this
      have hhome2 : cls (attempt + 1 + m2) = GameScreen.HOME_VILLAGE := by
        have harith : attempt + (m2 + 1) = attempt + 1 + m2 := by omega
        rwa [harith] at hhome
      have ht := ih m2 (attempt + 1) (by omega) hpre2 hhome2
      rw [return_to_home_from]
      simp only [hstop attempt, Bool.false_eq_true, if_false, if_neg h0, ht]
      refine congrArg (RecoveryResult.mk true (m2 + 1 + 1)) ?_
      rw [List.range_succ_eq_map]
      simp only [List.map_cons, List.map_map, Nat.add_zero, List.cons.injEq]
      refine ⟨trivial, ?_⟩
      apply List.map_congr_left
      intro j _
      have harith : attempt + 1 + j = attempt + (j + 1) := by omega
      simp [Function.comp, harith]

theorem return_to_home_from_fail (stop : Nat → Bool) (cls : Nat → GameScreen)
    (hstop : ∀ j, stop j = false)
    (hcls : ∀ j, cls j ≠ GameScreen.HOME_VILLAGE) :
    ∀ fuel attempt,
      return_to_home_from stop cls attempt fuel =
        ⟨false, fuel, (List.range fuel).map (fun j => cls (attempt + j))⟩ := by
  intro fuel
  induction fuel with
  | zero => intro attempt; rfl
  | succ f ih =>
    intro attempt
    have ht := ih (attempt + 1)
    rw [return_to_home_from]
    simp only [hstop attempt, Bool.false_eq_true, if_false,
      if_neg (hcls attempt), ht]
    refine congrArg (RecoveryResult.mk false (f + 1)) ?_
    rw [List.range_succ_eq_map]
    simp only [List.map_cons, List.map_map, Nat.add_zero, List.cons.injEq]
    refine ⟨trivial, ?_⟩
    apply List.map_congr_left
    intro j _
    have harith : attempt + 1 + j = attempt + (j + 1) := by omega
    simp [Function.comp, harith]

/-! ## Orchestrator-loop lemmas -/

theorem switch_all_from_spec (stop : Nat → Bool) (proc : Nat → ProcResult) :
    ∀ fuel i, ∃ m, m ≤ fuel ∧
      (switch_all_from stop proc i fuel).visited = List.range' i m ∧
      (switch_all_from stop proc i fuel).successful +
        (switch_all_from stop proc i fuel).failed.length = m ∧
      ((∀ j, stop j = false) → m = fuel) := by
  intro fuel
  induction fuel with
  | zero => intro i; exact ⟨0, by simp [switch_all_from]⟩
  | succ f ih =>
    intro i
    by_cases hs : stop i = true
    · refine ⟨0, by omega, ?_, ?_, ?_⟩
      · rw [switch_all_from]; simp [hs]
      · rw [switch_all_from]; simp [hs]
      · intro hall; exact absurd (hall i) (by simp [hs])
    · have hs2 : stop i = false := by
        cases h : stop i
        · rfl
        · exact absurd h hs
      obtain ⟨m, hm, hv, hc, he⟩ := ih (i + 1)
      refine ⟨m + 1, by omega, ?_, ?_, fun hall => by rw [he hall]⟩
      · rw [switch_all_from]
        simp only [hs2, Bool.false_eq_true, if_false]
        cases hp : proc i <;>
          simp [hp, hv, List.range'_succ]
      · rw [switch_all_from]
        simp only [hs2, Bool.false_eq_true, if_false]
        cases hp : proc i <;>
          simp [hp, hc] <;> omega

theorem switch_all_from_nostop (proc : Nat → ProcResult) :
    ∀ fuel i,
      switch_all_from (fun _ => false) proc i fuel =
        ⟨((List.range' i fuel).filter (fun j => proc j = ProcResult.ok)).length,
         ((List.range' i fuel).filter
            (fun j => !(proc j = ProcResult.ok : Bool))).map (fun j => j + 1),
         ((List.range' i fuel).filter
            (fun j => !(proc j = ProcResult.ok : Bool))).length,
         List.range' i fuel,
         false⟩ := by
  intro fuel
  induction fuel with
  | zero => intro i; rfl
  | succ f ih =>
    intro i
    rw [switch_all_from]
    simp only [Bool.false_eq_true, if_false, ih (i + 1)]
    cases hp : proc i <;>
      simp [hp, List.range'_succ, List.filter_cons]

/-! ## Claim theorems -/

/-- C5: classification is total and deterministic in the observation
outcomes: for every combination of presence-check results,
get_current_screen (no stop requested) returns exactly the variant of the
first predicate in its fixed evaluation order that reports presence, and
UNKNOWN when no predicate reports presence. -/
theorem classification_first_match :
    (∀ obs : ScreenObs,
       get_current_screen false obs = firstMatch (predicateTable obs)) ∧
    get_current_screen false ⟨false, false, false, false, false⟩ =
      GameScreen.UNKNOWN := by
  constructor
  · intro obs
    cases obs with
    | mk a b c d e =>
      cases a <;> cases b <;> cases c <;> cases d <;> cases e <;> rfl
  · rfl

/-- C2: an operation that fails on every invocation (falsy return or raised
exception), wrapped by with_retry with RetryConfig(max_retries = k,
recover_to_home = True) on an object whose recovery attribute is present,
is invoked exactly k + 1 times, triggers recovery exactly k times and never
after the final attempt (the event trace is k invoke/recover blocks followed
by one final invocation), and the wrapper returns False — raised errors are
normalized to a falsy return, never re-raised. -/
theorem retry_exhaustion (k delay : Nat) (op : Nat → OpOutcome)
    (hop : ∀ n, op n ≠ OpOutcome.ok) :
    with_retry ⟨k, true, delay⟩ true op = (false, failPattern k) ∧
    (failPattern k).count RetryEvent.invoke = k + 1 ∧
    (failPattern k).count RetryEvent.recover = k ∧
    (failPattern k).getLast? = some RetryEvent.invoke := by
  refine ⟨?_, failPattern_count_invoke k, failPattern_count_recover k,
    failPattern_getLast k⟩
  have h := with_retry_from_always_fail ⟨k, true, delay⟩ op hop rfl (k + 1) 0
    (by omega)
  simpa [with_retry] using h

/-- Witness for C2 at k = 2 with an operation that raises every time. -/
theorem retry_exhaustion_witness :
    with_retry ⟨2, true, 2000⟩ true (fun _ => OpOutcome.exn) =
      (false, failPattern 2) ∧
    (failPattern 2).count RetryEvent.invoke = 3 ∧
    (failPattern 2).count RetryEvent.recover = 2 ∧
    (failPattern 2).getLast? = some RetryEvent.invoke :=
  retry_exhaustion 2 2000 (fun _ => OpOutcome.exn) (fun n => by simp)

/-- C3: with no stop requested, return_to_home(max_attempts) returns success
after exactly k classifications and k - 1 corrective actions when the
classifier first reports the home state at the k-th observation with
k ≤ max_attempts; when the classifier never reports it, the loop performs
exactly max_attempts classifications, one corrective action after each, and
returns failure — never more than max_attempts observation/action cycles. -/
theorem return_to_home_bounds (stop : Nat → Bool) (cls : Nat → GameScreen)
    (max_attempts k : Nat) (hstop : ∀ j, stop j = false) :
    (1 ≤ k → k ≤ max_attempts →
      (∀ j, j < k - 1 → cls j ≠ GameScreen.HOME_VILLAGE) →
      cls (k - 1) = GameScreen.HOME_VILLAGE →
      (return_to_home stop cls max_attempts).success = true ∧
      (return_to_home stop cls max_attempts).classifications = k ∧
      (return_to_home stop cls max_attempts).appliedActions.length = k - 1) ∧
    ((∀ j, cls j ≠ GameScreen.HOME_VILLAGE) →
      (return_to_home stop cls max_attempts).success = false ∧
      (return_to_home stop cls max_attempts).classifications = max_attempts ∧
      (return_to_home stop cls max_attempts).appliedActions.length =
        max_attempts) := by
  constructor
  · intro h1 h2 hpre hhome
    have hm : k - 1 < max_attempts := by omega
    have hpre0 : ∀ j, j < k - 1 → cls (0 + j) ≠ GameScreen.HOME_VILLAGE := by
      intro j hj
      simpa using hpre j hj
    have hhome0 : cls (0 + (k - 1)) = GameScreen.HOME_VILLAGE := by
      simpa using hhome
    have h := return_to_home_from_success stop cls hstop max_attempts (k - 1) 0
      hm hpre0 hhome0
    rw [return_to_home, h]
    refine ⟨rfl, ?_, by simp⟩
    show k - 1 + 1 = k
    omega
  · intro hcls
    have h := return_to_home_from_fail stop cls hstop hcls max_attempts 0
    rw [return_to_home, h]
    exact ⟨rfl, rfl, by simp⟩

/-- Witness for C3: home first observed at the 2nd of 3 attempts (1
corrective action), and a classifier that never reports home (3
classifications, 3 corrective actions, failure). -/
theorem return_to_home_bounds_witness :
    ((return_to_home (fun _ => false)
        (fun n => if n = 1 then GameScreen.HOME_VILLAGE else GameScreen.UNKNOWN)
        3).success = true ∧
     (return_to_home (fun _ => false)
        (fun n => if n = 1 then GameScreen.HOME_VILLAGE else GameScreen.UNKNOWN)
        3).classifications = 2 ∧
     (return_to_home (fun _ => false)
        (fun n => if n = 1 then GameScreen.HOME_VILLAGE else GameScreen.UNKNOWN)
        3).appliedActions.length = 1) ∧
    ((return_to_home (fun _ => false) (fun _ => GameScreen.UNKNOWN)
        3).success = false ∧
     (return_to_home (fun _ => false) (fun _ => GameScreen.UNKNOWN)
        3).classifications = 3 ∧
     (return_to_home (fun _ => false) (fun _ => GameScreen.UNKNOWN)
        3).appliedActions.length = 3) :=
  ⟨(return_to_home_bounds (fun _ => false)
      (fun n => if n = 1 then GameScreen.HOME_VILLAGE else GameScreen.UNKNOWN)
      3 2 (fun j => rfl)).1 (by decide) (by decide)
      (by decide) (by decide),
   (return_to_home_bounds (fun _ => false) (fun _ => GameScreen.UNKNOWN)
      3 2 (fun j => rfl)).2 (fun j => by simp)⟩

/-- C6: after mark_task_completed(i, t), is_task_completed_today(i, t) with
the UTC date unchanged returns True; the same query under any different
(later) UTC date returns False; and when no record exists for (i, t) —
character absent, or character present without the task — the query returns
False. -/
theorem mark_then_query (d : TrackerData) (i : Nat) (t today now : String)
    (writeOk : Bool) (file : Option TrackerData) :
    is_task_completed_today
      (mark_task_completed d i t today now writeOk file).1 i t today = true ∧
    (∀ today2, today2 ≠ today →
      is_task_completed_today
        (mark_task_completed d i t today now writeOk file).1 i t today2 = false) ∧
    (alookup d.characters (char_key i) = none →
      is_task_completed_today d i t today = false) ∧
    (∀ char_data, alookup d.characters (char_key i) = some char_data →
      alookup char_data t = none →
      is_task_completed_today d i t today = false) := by
  have hchars :
      alookup (mark_task_completed d i t today now writeOk file).1.characters
        (char_key i) =
      some (adset (match alookup d.characters (char_key i) with
                   | none => []
                   | some cd => cd) t today) := by
    simp only [mark_task_completed, save_tracking_data]
    exact alookup_adset_self _ _ _
  have htask :
      alookup (adset (match alookup d.characters (char_key i) with
                      | none => []
                      | some cd => cd) t today) t = some today :=
    alookup_adset_self _ _ _
  refine ⟨?_, ?_, ?_, ?_⟩
  · simp [is_task_completed_today, hchars, htask]
  · intro today2 hne
    simp [is_task_completed_today, hchars, htask]
    exact fun h => absurd h.symm hne
  · intro habs
    simp [is_task_completed_today, habs]
  · intro char_data hcd htad
    simp [is_task_completed_today, hcd, htad]

/-- Witness for C6 at i = 0, t = "build", marking on 2026-10-12 and
re-querying on 2026-10-13, over the empty store and over a store holding
character "0" with no tasks. -/
theorem mark_then_query_witness :
    is_task_completed_today
      (mark_task_completed emptyTrackerData 0 "build" "2026-10-12" "ts" true
        none).1 0 "build" "2026-10-12" = true ∧
    is_task_completed_today
      (mark_task_completed emptyTrackerData 0 "build" "2026-10-12" "ts" true
        none).1 0 "build" "2026-10-13" = false ∧
    is_task_completed_today emptyTrackerData 0 "build" "2026-10-12" = false ∧
    is_task_completed_today (⟨none, [("0", [])]⟩ : TrackerData) 0 "build"
      "2026-10-12" = false :=
  ⟨(mark_then_query emptyTrackerData 0 "build" "2026-10-12" "ts" true none).1,
   (mark_then_query emptyTrackerData 0 "build" "2026-10-12" "ts" true
      none).2.1 "2026-10-13" (by decide),
   (mark_then_query emptyTrackerData 0 "build" "2026-10-12" "ts" true
      none).2.2.1 rfl,
   (mark_then_query (⟨none, [("0", [])]⟩ : TrackerData) 0 "build" "2026-10-12"
      "ts" true none).2.2.2 [] (by decide) rfl⟩

/-- C8: constructing the tracker over an unreadable or malformed storage
file (load raises JSONDecodeError/IOError, modelled as a failed parse)
yields the empty store with no completion records and null last_updated,
and so does a missing file; and a storage write failure during
mark_task_completed is caught — the call still returns, the file keeps its
old contents, and the in-memory store holds the new completion date, so a
subsequent same-day is_task_completed_today on the same instance returns
True. -/
theorem tracker_degrades (p : Option TrackerData) (d : TrackerData) (i : Nat)
    (t today now : String) (file : Option TrackerData) :
    load_tracking_data true none = emptyTrackerData ∧
    load_tracking_data false p = emptyTrackerData ∧
    emptyTrackerData.characters = [] ∧
    emptyTrackerData.last_updated = none ∧
    is_task_completed_today
      (mark_task_completed d i t today now false file).1 i t today = true ∧
    (mark_task_completed d i t today now false file).2 = file := by
  refine ⟨rfl, rfl, rfl, rfl, ?_, ?_⟩
  · have hchars :
        alookup (mark_task_completed d i t today now false file).1.characters
          (char_key i) =
        some (adset (match alookup d.characters (char_key i) with
                     | none => []
                     | some cd => cd) t today) := by
      simp only [mark_task_completed, save_tracking_data]
      exact alookup_adset_self _ _ _
    simp [is_task_completed_today, hchars, alookup_adset_self]
  · simp [mark_task_completed, save_tracking_data]

/-- C9: with force_daily_tasks = True the gating decision is independent of
the tracker's stored state: for any two stored states (and any two dates)
should_run_daily_task returns True in both runs, and it also returns True
with no tracker attached — the is_task_completed_today check never
influences the outcome. -/
theorem force_bypasses_tracker (d1 d2 : TrackerData) (i1 i2 : Nat)
    (t1 t2 today1 today2 : String) :
    should_run_daily_task (some d1) true i1 t1 today1 = true ∧
    should_run_daily_task (some d2) true i2 t2 today2 = true ∧
    should_run_daily_task (some d1) true i1 t1 today1 =
      should_run_daily_task (some d2) true i2 t2 today2 ∧
    should_run_daily_task none true i1 t1 today1 = true := by
  exact ⟨rfl, rfl, rfl, rfl⟩

/-- C10: mark_task_completed(i, t) leaves the stored completion date of
every other (character, task) pair unchanged — for j ≠ i every task of
character j, and for character i every task u ≠ t — while setting the (i, t)
entry to today and last_updated to the save timestamp. -/
theorem mark_frame (d : TrackerData) (i j : Nat) (t u today now : String)
    (writeOk : Bool) (file : Option TrackerData)
    (hne : j ≠ i ∨ u ≠ t) :
    taskDate (mark_task_completed d i t today now writeOk file).1 j u =
      taskDate d j u ∧
    taskDate (mark_task_completed d i t today now writeOk file).1 i t =
      some today ∧
    (mark_task_completed d i t today now writeOk file).1.last_updated =
      some now := by
  refine ⟨?_, ?_, rfl⟩
  · rcases hne with hj | hu
    · have hkey : char_key j ≠ char_key i :=
        fun h => hj (char_key_injective h)
      simp only [taskDate, mark_task_completed, save_tracking_data]
      rw [alookup_adset_other _ _ _ _ hkey]
    · by_cases hj : j = i
      · subst hj
        simp only [taskDate, mark_task_completed, save_tracking_data]
        rw [alookup_adset_self]
        cases hcd : alookup d.characters (char_key j) with
        | none =>
          simp [hcd, alookup_adset_other _ _ _ _ hu, alookup,
            show ¬t = u from fun h => hu h.symm]
        | some cd => simp [hcd, alookup_adset_other _ _ _ _ hu]
      · have hkey : char_key j ≠ char_key i :=
          fun h => hj (char_key_injective h)
        simp only [taskDate, mark_task_completed, save_tracking_data]
        rw [alookup_adset_other _ _ _ _ hkey]
  · simp only [taskDate, mark_task_completed, save_tracking_data]
    rw [alookup_adset_self]
    exact alookup_adset_self _ _ _

/-- Witness for C10: marking (0, "build") leaves (1, "build") untouched. -/
theorem mark_frame_witness :
    taskDate
      (mark_task_completed emptyTrackerData 0 "build" "2026-10-12" "ts" true
        none).1 1 "build" =
      taskDate emptyTrackerData 1 "build" ∧
    taskDate
      (mark_task_completed emptyTrackerData 0 "build" "2026-10-12" "ts" true
        none).1 0 "build" = some "2026-10-12" ∧
    (mark_task_completed emptyTrackerData 0 "build" "2026-10-12" "ts" true
      none).1.last_updated = some "ts" :=
  mark_frame emptyTrackerData 0 1 "build" "build" "2026-10-12" "ts" true none
    (Or.inl (by decide))

/-- C1: for every entity count N ≥ 0 and startIndex ≤ N,
switch_all_characters attempts entity indices in strictly increasing order
within [startIndex, N), and successful_characters plus the length of
failed_characters is at most N - startIndex, with equality whenever no stop
is requested during the run. -/
theorem runAll_order_and_counts (stop : Nat → Bool) (proc : Nat → ProcResult)
    (startIndex N : Nat) (h0 : startIndex ≤ N) :
    (switch_all_characters stop proc startIndex N).visited.Pairwise (· < ·) ∧
    (∀ x ∈ (switch_all_characters stop proc startIndex N).visited,
       startIndex ≤ x ∧ x < N) ∧
    (switch_all_characters stop proc startIndex N).successful +
      (switch_all_characters stop proc startIndex N).failed.length ≤
      N - startIndex ∧
    ((∀ j, stop j = false) →
      (switch_all_characters stop proc startIndex N).successful +
        (switch_all_characters stop proc startIndex N).failed.length =
        N - startIndex) := by
  obtain ⟨m, hm, hv, hc, he⟩ :=
    switch_all_from_spec stop proc (N - startIndex) startIndex
  refine ⟨?_, ?_, ?_, ?_⟩
  · rw [switch_all_characters, hv]
    exact List.pairwise_lt_range' startIndex m
  · intro x hx
    rw [switch_all_characters, hv] at hx
    have := List.mem_range'_1.mp hx
    omega
  · rw [switch_all_characters, hc]
    exact hm
  · intro hall
    rw [switch_all_characters, hc]
    exact he hall

/-- Witness for C1: three always-succeeding entities from start index 1 with
no stop requested. -/
theorem runAll_order_and_counts_witness :
    (switch_all_characters (fun _ => false) (fun _ => ProcResult.ok)
       1 3).visited.Pairwise (· < ·) ∧
    (∀ x ∈ (switch_all_characters (fun _ => false) (fun _ => ProcResult.ok)
       1 3).visited, 1 ≤ x ∧ x < 3) ∧
    (switch_all_characters (fun _ => false) (fun _ => ProcResult.ok)
       1 3).successful +
      (switch_all_characters (fun _ => false) (fun _ => ProcResult.ok)
       1 3).failed.length ≤ 2 ∧
    (switch_all_characters (fun _ => false) (fun _ => ProcResult.ok)
       1 3).successful +
      (switch_all_characters (fun _ => false) (fun _ => ProcResult.ok)
       1 3).failed.length = 2 := by
  have h := runAll_order_and_counts (fun _ => false) (fun _ => ProcResult.ok)
    1 3 (by decide)
  exact ⟨h.1, h.2.1, h.2.2.1, h.2.2.2 (fun j => rfl)⟩

/-- C7: an unrecoverable failure of one entity (falsy return after exhausted
retries, or a raised exception) never terminates the run: with no stop
requested, every index in [startIndex, N) is still attempted, the run does
not report an early stop, the failing entity is recorded in the
failed_characters list (as its 1-based number i + 1), and exactly one
bulkhead recovery call is made per failed entity; the loop body is total,
so no per-entity exception escapes switch_all_characters. -/
theorem entity_failure_isolated (proc : Nat → ProcResult)
    (startIndex N i : Nat) (h1 : startIndex ≤ i) (h2 : i < N)
    (h3 : proc i ≠ ProcResult.ok) :
    (switch_all_characters (fun _ => false) proc startIndex N).visited =
      List.range' startIndex (N - startIndex) ∧
    (i + 1) ∈ (switch_all_characters (fun _ => false) proc startIndex N).failed ∧
    (switch_all_characters (fun _ => false) proc startIndex N).stoppedEarly =
      false ∧
    (switch_all_characters (fun _ => false) proc startIndex N).bulkheadCalls =
      (switch_all_characters (fun _ => false) proc startIndex N).failed.length := by
  rw [switch_all_characters, switch_all_from_nostop proc (N - startIndex) startIndex]
  refine ⟨rfl, ?_, rfl, by simp⟩
  apply List.mem_map.mpr
  refine ⟨i, ?_, rfl⟩
  apply List.mem_filter.mpr
  refine ⟨List.mem_range'_1.mpr (by omega), by simp [h3]⟩

/-- Witness for C7: entity 1 of 3 always fails, entities 0 and 2 succeed. -/
theorem entity_failure_isolated_witness :
    (switch_all_characters (fun _ => false)
       (fun j => if j = 1 then ProcResult.fail else ProcResult.ok) 0 3).visited =
      List.range' 0 3 ∧
    (1 + 1) ∈ (switch_all_characters (fun _ => false)
       (fun j => if j = 1 then ProcResult.fail else ProcResult.ok) 0 3).failed ∧
    (switch_all_characters (fun _ => false)
       (fun j => if j = 1 then ProcResult.fail else ProcResult.ok)
       0 3).stoppedEarly = false ∧
    (switch_all_characters (fun _ => false)
       (fun j => if j = 1 then ProcResult.fail else ProcResult.ok)
       0 3).bulkheadCalls =
      (switch_all_characters (fun _ => false)
       (fun j => if j = 1 then ProcResult.fail else ProcResult.ok)
       0 3).failed.length :=
  entity_failure_isolated
    (fun j => if j = 1 then ProcResult.fail else ProcResult.ok) 0 3 1
    (by decide) (by decide) (by decide)

/-- C4 counterexample: in the 3-entity scenario where entity index 1 always
fails and entities 0 and 2 succeed (max_retries = 2), the failed_characters
list is not [1] — the source appends the 1-based number i + 1 = 2, so the
claim's failedEntities = [1] is false on the code. -/
theorem scenario_failed_list_ne : scenarioRun.failed ≠ [1] := by decide

/-- C4 (amended): in that scenario the run yields successful_characters = 2,
failed_characters = [2] (the 1-based number of entity index 1), no early
stop, all three indices visited, and exactly one bulkhead recovery call;
entity 1's retry wrapper invokes its processing 3 times and recovery exactly
2 times, for 3 recovery invocations attributable to entity 1 in total. -/
theorem scenario_run_result :
    scenarioRun = ⟨2, [2], 1, [0, 1, 2], false⟩ ∧
    (with_retry ⟨2, true, 2000⟩ true (scenarioOp 1)).2.count
      RetryEvent.invoke = 3 ∧
    (with_retry ⟨2, true, 2000⟩ true (scenarioOp 1)).2.count
      RetryEvent.recover = 2 ∧
    scenarioRun.bulkheadCalls = 1 := by
  refine ⟨?_, ?_, ?_, ?_⟩ <;> decide

end RokBot
